import Mathlib

/-!
Shallow embedding of the core of the `threejs_cad` scene editor:
the edit-history store (`src/App.tsx`), the transform-sync bridge and the
magnetic snap logic of `handleTransformChange` (`src/components/Viewport.tsx`).

Numbers are modelled as exact rationals; JS arrays of snapshots become
`List`s; `history[historyIndex]` becomes `List.getElem?`.
-/

namespace ThreeCad

/-- `Vec3` from `src/types.ts`: three components x, y, z. -/
structure Vec3 where
  x : ℚ
  y : ℚ
  z : ℚ
  deriving DecidableEq, Repr

/-- `ShapeType` enum from `src/types.ts` (revision used by `src/App.tsx`). -/
inductive ShapeType where
  | box | sphere | cylinder | torus | plane | icosahedron | heart | text
  deriving DecidableEq, Repr

/-- `MaterialType` enum used by `src/App.tsx` / `src/components/Viewport.tsx`. -/
inductive MaterialType where
  | standard | metal | wood | glass | plastic
  deriving DecidableEq, Repr

/-- `TransformMode` enum from `src/types.ts`. -/
inductive TransformMode where
  | translate | rotate | scaleMode
  deriving DecidableEq, Repr

/-- `SceneObject` from `src/types.ts` (fields as consumed by `src/App.tsx`). -/
structure SceneObject where
  id : String
  name : String
  shape : ShapeType
  position : Vec3
  rotation : Vec3
  scale : Vec3
  color : String
  materialType : MaterialType
  visible : Bool
  text : Option String
  deriving DecidableEq, Repr

/-- The history state of `src/App.tsx`:
`const [history, setHistory] = useState<SceneObject[][]>([INITIAL_OBJECTS])`
and `const [historyIndex, setHistoryIndex] = useState(0)`. -/
structure HistoryState where
  history : List (List SceneObject)
  historyIndex : Nat
  deriving DecidableEq, Repr

/-- `const objects = history[historyIndex]` (App.tsx line 197); out-of-range
indexing in JS yields `undefined`, modelled by `Option`. -/
def currentObjects (s : HistoryState) : Option (List SceneObject) :=
  s.history[s.historyIndex]?

/-- `const canUndo = historyIndex > 0` (App.tsx line 198). -/
def canUndo (s : HistoryState) : Bool :=
  decide (0 < s.historyIndex)

/-- `const canRedo = historyIndex < history.length - 1` (App.tsx line 199). -/
def canRedo (s : HistoryState) : Bool :=
  decide (s.historyIndex < s.history.length - 1)

/-- `setObjectsWithHistory` (App.tsx lines 213-225): computes the new object
list from the current one, slices `history` to `[0 .. historyIndex]`, appends
the new list, and increments `historyIndex`. -/
def setObjectsWithHistory (action : List SceneObject → List SceneObject)
    (s : HistoryState) : HistoryState :=
  let currentObjs := (s.history[s.historyIndex]?).getD []
  let newObjects := action currentObjs
  { history := s.history.take (s.historyIndex + 1) ++ [newObjects]
    historyIndex := s.historyIndex + 1 }

/-- `handleUndo` (App.tsx lines 227-231): decrement the cursor if `canUndo`. -/
def handleUndo (s : HistoryState) : HistoryState :=
  if canUndo s then { s with historyIndex := s.historyIndex - 1 } else s

/-- `handleRedo` (App.tsx lines 233-237): increment the cursor if `canRedo`. -/
def handleRedo (s : HistoryState) : HistoryState :=
  if canRedo s then { s with historyIndex := s.historyIndex + 1 } else s

/-- A `Partial<SceneObject>` restricted to the fields the editor actually
patches (`{ ...obj, ...updates }` in `handleUpdateObject`). -/
structure ObjectUpdates where
  name : Option String
  position : Option Vec3
  rotation : Option Vec3
  scale : Option Vec3
  color : Option String
  visible : Option Bool
  deriving DecidableEq, Repr

/-- `{ ...obj, ...updates }`: every field present in `updates` overrides the
corresponding field of `obj`. -/
def applyUpdates (u : ObjectUpdates) (obj : SceneObject) : SceneObject :=
  { obj with
    name := u.name.getD obj.name
    position := u.position.getD obj.position
    rotation := u.rotation.getD obj.rotation
    scale := u.scale.getD obj.scale
    color := u.color.getD obj.color
    visible := u.visible.getD obj.visible }

/-- `handleUpdateObject` (App.tsx lines 351-355): map over the current object
list patching the object with the matching id, recorded through
`setObjectsWithHistory`. -/
def handleUpdateObject (id : String) (u : ObjectUpdates)
    (s : HistoryState) : HistoryState :=
  setObjectsWithHistory
    (fun objs => objs.map (fun obj => if obj.id = id then applyUpdates u obj else obj)) s

/-- One editor intent hitting the history store: a recorded state update
(`setObjectsWithHistory` with some action), an undo, or a redo. -/
inductive HistOp where
  | commitF (action : List SceneObject → List SceneObject)
  | undo
  | redo

/-- Apply one history operation. -/
def stepOp (s : HistoryState) (op : HistOp) : HistoryState :=
  match op with
  | .commitF action => setObjectsWithHistory action s
  | .undo => handleUndo s
  | .redo => handleRedo s

/-- Apply a sequence of history operations. -/
def runOps (s : HistoryState) (ops : List HistOp) : HistoryState :=
  ops.foldl stepOp s

/-- Session start (App.tsx lines 193-194): `history = [INITIAL_OBJECTS]`,
`historyIndex = 0`. -/
def initialHistory (initialScene : List SceneObject) : HistoryState :=
  { history := [initialScene], historyIndex := 0 }

/-- The cursor invariant of the history store: `historyIndex` is a valid
index into `history` (with `0 ≤ historyIndex` for free in `Nat`). -/
def HistInv (s : HistoryState) : Prop :=
  s.historyIndex < s.history.length

instance (s : HistoryState) : Decidable (HistInv s) := by
  unfold HistInv; infer_instance

/-! ### Snap engine (`handleTransformChange`, Viewport.tsx lines 102-151) -/

/-- `const snapThreshold = 0.25` (Viewport.tsx line 113). -/
def snapThreshold : ℚ := 1/4

/-- `Math.abs`, written so the kernel can evaluate it on rationals. -/
def ratAbs (q : ℚ) : ℚ := if q < 0 then -q else q

/-- Squared Euclidean distance between two points. -/
def distSq (a b : Vec3) : ℚ :=
  (a.x - b.x)^2 + (a.y - b.y)^2 + (a.z - b.z)^2

/-- `a.distanceTo(b) < r`, expressed without square roots: since the distance
is nonnegative, it is below `r` exactly when `r` is positive and the squared
distance is below `r^2`. -/
def distLt (a b : Vec3) (r : ℚ) : Bool :=
  decide (0 < r) && decide (distSq a b < r * r)

/-- One axis of the snap body (Viewport.tsx lines 121-127 for X, 129-135 for
Y, 137-143 for Z): `cur` is the proposed coordinate (read from the frozen
`currentPos`), `otherC` the candidate's coordinate, `chw` the combined
half-width, and `prev` the accumulated `mesh.position` coordinate, kept when
neither face test fires. -/
def snapAxis (cur otherC chw prev : ℚ) : ℚ :=
  if ratAbs (cur - otherC - chw) < snapThreshold then otherC + chw
  else if ratAbs (cur - otherC + chw) < snapThreshold then otherC - chw
  else prev

/-- The body of the `for (const other of allObjects)` loop (Viewport.tsx
lines 116-148): skip self and invisible candidates, broad-phase reject by
distance, then run the three independent per-axis face tests. All tests read
the frozen `currentPos` (`proposed`); writes accumulate in `pos`. -/
def snapStep (obj : SceneObject) (proposed : Vec3) (pos : Vec3)
    (other : SceneObject) : Vec3 :=
  if other.id = obj.id ∨ other.visible = false then pos
  else if distLt other.position proposed
      (max obj.scale.x other.scale.x + snapThreshold) then
    { x := snapAxis proposed.x other.position.x ((obj.scale.x + other.scale.x) / 2) pos.x
      y := snapAxis proposed.y other.position.y ((obj.scale.y + other.scale.y) / 2) pos.y
      z := snapAxis proposed.z other.position.z ((obj.scale.z + other.scale.z) / 2) pos.z }
  else pos

/-- The whole snap pass of `handleTransformChange` over the candidate list:
fold the loop body over `allObjects`, starting from the proposed position. -/
def trySnap (obj : SceneObject) (proposed : Vec3)
    (allObjects : List SceneObject) : Vec3 :=
  allObjects.foldl (snapStep obj proposed) proposed

/-! ### Transform sync bridge (Viewport.tsx `SceneItem`, lines 86-151) -/

/-- The live transform of the dragged mesh (`mesh.position` / `.rotation` /
`.scale`). -/
structure Transform where
  position : Vec3
  rotation : Vec3
  scale : Vec3
  deriving DecidableEq, Repr

/-- The notifications emitted by `TransformControls` during a gesture:
`onMouseDown` → `handleTransformStart`, `onObjectChange` →
`handleTransformChange` (with the handle already mutated to `t`),
`onMouseUp` → `handleTransformEnd`. -/
inductive DragEvent where
  | dragStart
  | dragChange (t : Transform)
  | dragEnd

/-- The drag-relevant state: the App-side history plus the `SceneItem`'s
`mesh` ref and `isDragging` flag. -/
structure DragState where
  hist : HistoryState
  mesh : Transform
  isDragging : Bool

/-- `handleTransformChange` (Viewport.tsx lines 102-151) as a function of the
freshly mutated handle transform `t`: when snapping is active (snap enabled,
translate mode, dragging) the position is corrected by the snap pass; the
rotation and scale of the handle are never touched. No commit happens here. -/
def applyChange (snapEnabled : Bool) (mode : TransformMode)
    (obj : SceneObject) (allObjects : List SceneObject)
    (isDragging : Bool) (t : Transform) : Transform :=
  if snapEnabled && (mode = TransformMode.translate) && isDragging then
    { t with position := trySnap obj t.position allObjects }
  else t

/-- `handleTransformEnd` (Viewport.tsx lines 88-100) builds the committed
update from the handle's final position, rotation and scale. -/
def updatesOfTransform (t : Transform) : ObjectUpdates :=
  { name := none
    position := some t.position
    rotation := some t.rotation
    scale := some t.scale
    color := none
    visible := none }

/-- Process one drag notification for the `SceneItem` rendering `obj` with
candidate list `allObjects` (both props read from the current snapshot, which
does not change during the gesture). -/
def processDragEvent (snapEnabled : Bool) (mode : TransformMode)
    (obj : SceneObject) (allObjects : List SceneObject)
    (s : DragState) (e : DragEvent) : DragState :=
  match e with
  | .dragStart => { s with isDragging := true }
  | .dragChange t =>
      { s with mesh := applyChange snapEnabled mode obj allObjects s.isDragging t }
  | .dragEnd =>
      { hist := handleUpdateObject obj.id (updatesOfTransform s.mesh) s.hist
        mesh := s.mesh
        isDragging := false }

/-- Run a sequence of drag notifications. -/
def runDrag (snapEnabled : Bool) (mode : TransformMode)
    (obj : SceneObject) (allObjects : List SceneObject)
    (s : DragState) (es : List DragEvent) : DragState :=
  es.foldl (processDragEvent snapEnabled mode obj allObjects) s

/-! ### Alignment predicates used to state the snap claims -/

/-- The proposed coordinate `cur` is already exactly face-aligned on one axis
with respect to one candidate face pair: whenever a face test of `snapAxis`
fires, the value it writes is `cur` itself. -/
def AlignedAxis (cur otherC chw : ℚ) : Prop :=
  (ratAbs (cur - otherC - chw) < snapThreshold → cur = otherC + chw) ∧
  (ratAbs (cur - otherC + chw) < snapThreshold → cur = otherC - chw)

/-- Neither face test fires for this axis and candidate: the proposed
coordinate is not within the snap threshold of either face. -/
def NoFaceMatch (cur otherC chw : ℚ) : Prop :=
  ¬ ratAbs (cur - otherC - chw) < snapThreshold ∧
  ¬ ratAbs (cur - otherC + chw) < snapThreshold

instance (cur otherC chw : ℚ) : Decidable (AlignedAxis cur otherC chw) := by
  unfold AlignedAxis; infer_instance

instance (cur otherC chw : ℚ) : Decidable (NoFaceMatch cur otherC chw) := by
  unfold NoFaceMatch; infer_instance

/-! ### Concrete scenes used by the witnesses and counterexamples -/

/-- A visible standard box, the default shape of the editor. -/
def mkBox (id : String) (position scale : Vec3) : SceneObject :=
  { id := id
    name := id
    shape := ShapeType.box
    position := position
    rotation := ⟨0, 0, 0⟩
    scale := scale
    color := "#ffffff"
    materialType := MaterialType.standard
    visible := true
    text := none }

/-- A unit-scale box at the origin, used in history examples. -/
def objA : SceneObject := mkBox "a" ⟨0, 1/2, 0⟩ ⟨1, 1, 1⟩
/-- A second box, used in history examples. -/
def objB : SceneObject := mkBox "b" ⟨2, 1/2, 0⟩ ⟨1, 1, 1⟩
/-- A third box, used in history examples. -/
def objC : SceneObject := mkBox "c" ⟨4, 1/2, 0⟩ ⟨1, 1, 1⟩
/-- A fourth box, used in history examples. -/
def objD : SceneObject := mkBox "d" ⟨6, 1/2, 0⟩ ⟨1, 1, 1⟩

/-- An update patch with no fields, `{}` in TypeScript. -/
def emptyUpdates : ObjectUpdates :=
  { name := none, position := none, rotation := none, scale := none
    color := none, visible := none }

/-- A history with one redo step available: snapshots `[[A], [A,B]]`,
cursor 0. -/
def exampleHist : HistoryState :=
  { history := [[objA], [objA, objB]], historyIndex := 0 }

/-- The Sheet of the end-to-end scenario: position `(0,0,0)`,
scale `(2, 2, 0.1)`. -/
def sheetObj : SceneObject := mkBox "sheet" ⟨0, 0, 0⟩ ⟨2, 2, 1/10⟩

/-- The Plank of the end-to-end scenario: position `(5,5,5)`,
scale `(1, 0.3, 0.1)`. -/
def plankObj : SceneObject := mkBox "plank" ⟨5, 5, 5⟩ ⟨1, 3/10, 1/10⟩

/-- The end-to-end scene `[Sheet, Plank]`. -/
def sceneC6 : List SceneObject := [sheetObj, plankObj]

/-- The proposed drag position `(0, 0.15, 0.05)` of the end-to-end
scenario. -/
def proposedC6 : Vec3 := ⟨0, 3/20, 1/20⟩

/-- A moving box whose world half-extent is `0.5` on each axis (the rendered
box geometry is unit-sized, so scale 1 gives half-extent 0.5). -/
def movingBox : SceneObject := mkBox "m" ⟨5, 0, 0⟩ ⟨1, 1, 1⟩

/-- A candidate box of the same size sitting at the origin: faces touch when
the centers are exactly `1.0` apart on X. -/
def candidateBox : SceneObject := mkBox "o" ⟨0, 0, 0⟩ ⟨1, 1, 1⟩

/-- The handle transform after `dragStart` and a sequence of `dragChange`
frames: each frame overwrites the handle with the freshly dragged transform
(possibly snap-corrected), with `isDragging = true` throughout. -/
def meshAfter (se : Bool) (mode : TransformMode) (obj : SceneObject)
    (allObjects : List SceneObject) (m₀ : Transform)
    (frames : List Transform) : Transform :=
  frames.foldl (fun _ t => applyChange se mode obj allObjects true t) m₀

/-! ## Helper lemmas -/

theorem length_take_hist (s : HistoryState) (h : HistInv s) :
    (s.history.take (s.historyIndex + 1)).length = s.historyIndex + 1 := by
  unfold HistInv at h
  rw [List.length_take]
  omega

theorem setHist_history (f : List SceneObject → List SceneObject) (s : HistoryState) :
    (setObjectsWithHistory f s).history
      = s.history.take (s.historyIndex + 1) ++ [f ((currentObjects s).getD [])] := rfl

theorem setHist_index (f : List SceneObject → List SceneObject) (s : HistoryState) :
    (setObjectsWithHistory f s).historyIndex = s.historyIndex + 1 := rfl

theorem setHist_length (f : List SceneObject → List SceneObject) (s : HistoryState)
    (h : HistInv s) :
    (setObjectsWithHistory f s).history.length = s.historyIndex + 2 := by
  rw [setHist_history, List.length_append, length_take_hist s h]
  rfl

theorem currentObjects_setHist (f : List SceneObject → List SceneObject)
    (s : HistoryState) (h : HistInv s) :
    currentObjects (setObjectsWithHistory f s) = some (f ((currentObjects s).getD [])) := by
  show (setObjectsWithHistory f s).history[(setObjectsWithHistory f s).historyIndex]?
      = some (f ((currentObjects s).getD []))
  rw [setHist_history, setHist_index,
    List.getElem?_append_right (by rw [length_take_hist s h]),
    length_take_hist s h]
  simp

theorem canRedo_setHist (f : List SceneObject → List SceneObject)
    (s : HistoryState) (h : HistInv s) :
    canRedo (setObjectsWithHistory f s) = false := by
  unfold canRedo
  rw [setHist_length f s h, setHist_index]
  simp

theorem histInv_setHist (f : List SceneObject → List SceneObject)
    (s : HistoryState) (h : HistInv s) :
    HistInv (setObjectsWithHistory f s) := by
  unfold HistInv
  rw [setHist_length f s h, setHist_index]
  omega

theorem histInv_handleUndo (s : HistoryState) (h : HistInv s) :
    HistInv (handleUndo s) := by
  unfold handleUndo
  split
  · unfold HistInv at *
    simp only []
    omega
  · exact h

theorem histInv_handleRedo (s : HistoryState) (h : HistInv s) :
    HistInv (handleRedo s) := by
  unfold handleRedo
  split
  · next hc =>
    unfold canRedo at hc
    unfold HistInv at h
    simp only [decide_eq_true_eq] at hc
    show s.historyIndex + 1 < s.history.length
    omega
  · exact h

theorem histInv_stepOp (s : HistoryState) (op : HistOp) (h : HistInv s) :
    HistInv (stepOp s op) := by
  cases op with
  | commitF f => exact histInv_setHist f s h
  | undo => exact histInv_handleUndo s h
  | redo => exact histInv_handleRedo s h

theorem histInv_runOps (s : HistoryState) (ops : List HistOp) (h : HistInv s) :
    HistInv (runOps s ops) := by
  induction ops generalizing s with
  | nil => exact h
  | cons op rest ih =>
    exact ih (stepOp s op) (histInv_stepOp s op h)

theorem handleUndo_at_zero (s : HistoryState) (h : s.historyIndex = 0) :
    handleUndo s = s := by
  unfold handleUndo canUndo
  rw [h]
  simp

theorem handleRedo_at_top (s : HistoryState)
    (h : s.historyIndex = s.history.length - 1) :
    handleRedo s = s := by
  unfold handleRedo canRedo
  rw [h]
  simp

theorem map_update_of_absent (u : ObjectUpdates) (id : String)
    (l : List SceneObject) (hid : ∀ o ∈ l, o.id ≠ id) :
    l.map (fun obj => if obj.id = id then applyUpdates u obj else obj) = l := by
  induction l with
  | nil => rfl
  | cons a t ih =>
    rw [List.map_cons, if_neg (hid a (by simp)), ih (fun o ho => hid o (by simp [ho]))]

theorem foldl_fixed {α : Type} {β : Type} (f : α → β → α) (a : α) (l : List β)
    (h : ∀ b ∈ l, f a b = a) : l.foldl f a = a := by
  induction l with
  | nil => rfl
  | cons b t ih =>
    rw [List.foldl_cons, h b (by simp)]
    exact ih (fun x hx => h x (by simp [hx]))

theorem ratAbs_eq_abs (q : ℚ) : ratAbs q = |q| := by
  unfold ratAbs
  split
  · next h => rw [abs_of_neg h]
  · next h => rw [abs_of_nonneg (le_of_not_lt h)]

theorem snapStep_self (obj : SceneObject) (proposed pos : Vec3)
    (other : SceneObject) (hid : other.id = obj.id) :
    snapStep obj proposed pos other = pos := by
  unfold snapStep
  rw [if_pos (Or.inl hid)]

theorem snapStep_hit (obj : SceneObject) (proposed pos : Vec3)
    (other : SceneObject) (hid : ¬ other.id = obj.id) (hvis : other.visible = true)
    (hd : distLt other.position proposed
      (max obj.scale.x other.scale.x + snapThreshold) = true) :
    snapStep obj proposed pos other =
      { x := snapAxis proposed.x other.position.x ((obj.scale.x + other.scale.x) / 2) pos.x
        y := snapAxis proposed.y other.position.y ((obj.scale.y + other.scale.y) / 2) pos.y
        z := snapAxis proposed.z other.position.z ((obj.scale.z + other.scale.z) / 2) pos.z } := by
  unfold snapStep
  rw [if_neg, if_pos hd]
  simp [hid, hvis]

theorem snapStep_far (obj : SceneObject) (proposed pos : Vec3)
    (other : SceneObject) (hid : ¬ other.id = obj.id) (hvis : other.visible = true)
    (hd : distLt other.position proposed
      (max obj.scale.x other.scale.x + snapThreshold) = false) :
    snapStep obj proposed pos other = pos := by
  unfold snapStep
  rw [if_neg, if_neg]
  · rw [hd]
    simp
  · simp [hid, hvis]

theorem snapAxis_fixed (cur otherC chw : ℚ) (h : AlignedAxis cur otherC chw) :
    snapAxis cur otherC chw cur = cur := by
  unfold snapAxis
  split
  · next hp => exact (h.1 hp).symm
  · split
    · next hn => exact (h.2 hn).symm
    · rfl

theorem snapAxis_nomatch (cur otherC chw prev : ℚ)
    (h : NoFaceMatch cur otherC chw) :
    snapAxis cur otherC chw prev = prev := by
  unfold snapAxis
  rw [if_neg h.1, if_neg h.2]

theorem snapAxis_unit (x : ℚ) (hx : 0 ≤ x) :
    snapAxis x 0 1 x = if ratAbs (x - 1) < snapThreshold then 1 else x := by
  unfold snapAxis
  have h1 : x - 0 - 1 = x - 1 := by ring
  have h2 : x - 0 + 1 = x + 1 := by ring
  rw [h1, h2]
  by_cases hc : ratAbs (x - 1) < snapThreshold
  · rw [if_pos hc, if_pos hc]
    norm_num
  · rw [if_neg hc, if_neg hc, if_neg]
    rw [ratAbs_eq_abs, abs_of_nonneg (by linarith)]
    show ¬ x + 1 < 1/4
    linarith

/-! ## Claim theorems -/

/-- C1: a commit (`setObjectsWithHistory`) on a history state satisfying the
cursor invariant truncates the snapshot list to the prefix `[0 .. cursor]`,
appends the new snapshot, sets the cursor to the index of the last element,
and leaves `canRedo` false; in particular, from snapshots `[A,B,C]` at
cursor 2, `undo()` followed by a commit of `D` yields `[A,B,D]` at cursor 2. -/
theorem commit_truncates_and_appends (s : HistoryState) (S : List SceneObject)
    (h : HistInv s) :
    (setObjectsWithHistory (fun _ => S) s).history
        = s.history.take (s.historyIndex + 1) ++ [S]
    ∧ (setObjectsWithHistory (fun _ => S) s).historyIndex
        = (setObjectsWithHistory (fun _ => S) s).history.length - 1
    ∧ canRedo (setObjectsWithHistory (fun _ => S) s) = false
    ∧ (∀ A B C D : List SceneObject,
        stepOp (stepOp ⟨[A, B, C], 2⟩ HistOp.undo) (HistOp.commitF fun _ => D)
          = ⟨[A, B, D], 2⟩) := by
  refine ⟨rfl, ?_, canRedo_setHist _ s h, fun A B C D => rfl⟩
  rw [setHist_length _ s h, setHist_index]
  omega

/-- C1 witness: committing `[objD]` on snapshots `[[A],[B],[C]]` at cursor 2
yields `[[A],[B],[C],[objD]]`. -/
theorem commit_truncates_and_appends_witness :
    (setObjectsWithHistory (fun _ => [objD]) ⟨[[objA], [objB], [objC]], 2⟩).history
      = [[objA], [objB], [objC], [objD]] := by
  have h := commit_truncates_and_appends ⟨[[objA], [objB], [objC]], 2⟩ [objD]
    (by decide)
  rw [h.1]
  rfl

/-- C2: committing a snapshot `S` and then undoing restores the snapshot that
was current immediately before the commit, and redoing after that undo makes
`S` current again. -/
theorem commit_undo_redo_inverse (s : HistoryState) (S : List SceneObject)
    (h : HistInv s) :
    currentObjects (handleUndo (setObjectsWithHistory (fun _ => S) s))
        = currentObjects s
    ∧ currentObjects (handleRedo (handleUndo (setObjectsWithHistory (fun _ => S) s)))
        = some S := by
  unfold HistInv at h
  have hundo : handleUndo (setObjectsWithHistory (fun _ => S) s)
      = ⟨s.history.take (s.historyIndex + 1) ++ [S], s.historyIndex⟩ := by
    unfold handleUndo canUndo
    rw [setHist_index]
    simp [setObjectsWithHistory]
  have htk : (s.history.take (s.historyIndex + 1)).length = s.historyIndex + 1 :=
    length_take_hist s h
  constructor
  · rw [hundo]
    show (s.history.take (s.historyIndex + 1) ++ [S])[s.historyIndex]?
        = s.history[s.historyIndex]?
    rw [List.getElem?_append_left (by omega), List.getElem?_take_of_lt (by omega)]
  · rw [hundo]
    have hredo : handleRedo
        (⟨s.history.take (s.historyIndex + 1) ++ [S], s.historyIndex⟩ : HistoryState)
        = ⟨s.history.take (s.historyIndex + 1) ++ [S], s.historyIndex + 1⟩ := by
      unfold handleRedo canRedo
      rw [if_pos]
      simp only [List.length_append, htk, decide_eq_true_eq]
      show s.historyIndex < s.historyIndex + 1 + 1 - 1
      omega
    rw [hredo]
    show (s.history.take (s.historyIndex + 1) ++ [S])[s.historyIndex + 1]?
        = some S
    rw [List.getElem?_append_right (by omega), htk]
    simp

/-- C2 witness: on snapshots `[[A],[B]]` at cursor 1, committing `[objC]`
then undoing restores `[objB]`, and redoing restores `[objC]`. -/
theorem commit_undo_redo_inverse_witness :
    currentObjects (handleUndo (setObjectsWithHistory (fun _ => [objC])
        ⟨[[objA], [objB]], 1⟩)) = some [objB]
    ∧ currentObjects (handleRedo (handleUndo (setObjectsWithHistory (fun _ => [objC])
        ⟨[[objA], [objB]], 1⟩))) = some [objC] := by
  have h := commit_undo_redo_inverse ⟨[[objA], [objB]], 1⟩ [objC]
    (by decide)
  exact ⟨by rw [h.1]; rfl, h.2⟩

/-- C3 counterexample: on history `[[A], [A,B]]` at cursor 0 (so a redo step
is available), calling `updateObject` with the unknown id `"z"` is not a
history no-op: the cursor moves from 0 to 1 and `canRedo` flips from true to
false — the redo branch is discarded even though no object matches. -/
theorem updateObject_unknown_id_counterexample :
    (∀ o ∈ (currentObjects exampleHist).getD [], o.id ≠ "z")
    ∧ canRedo exampleHist = true
    ∧ (handleUpdateObject "z" emptyUpdates exampleHist).historyIndex = 1
    ∧ exampleHist.historyIndex = 0
    ∧ canRedo (handleUpdateObject "z" emptyUpdates exampleHist) = false := by
  decide

/-- C3 (amended): `updateObject` with an id absent from the current snapshot
leaves the current object list value-unchanged and still never faults, but it
does commit: the snapshot list is truncated at the cursor and an identical
snapshot is appended, the cursor increments, and `canRedo` becomes false. -/
theorem updateObject_unknown_id_keeps_objects (s : HistoryState) (id : String)
    (u : ObjectUpdates) (h : HistInv s)
    (hid : ∀ o ∈ (currentObjects s).getD [], o.id ≠ id) :
    currentObjects (handleUpdateObject id u s) = some ((currentObjects s).getD [])
    ∧ (handleUpdateObject id u s).history
        = s.history.take (s.historyIndex + 1) ++ [(currentObjects s).getD []]
    ∧ (handleUpdateObject id u s).historyIndex = s.historyIndex + 1
    ∧ canRedo (handleUpdateObject id u s) = false := by
  have hmap := map_update_of_absent u id ((currentObjects s).getD []) hid
  unfold handleUpdateObject
  refine ⟨?_, ?_, setHist_index _ s, canRedo_setHist _ s h⟩
  · rw [currentObjects_setHist _ s h, hmap]
  · rw [setHist_history, hmap]

/-- C3 amended witness: concrete instance on `exampleHist` with unknown id
`"z"`. -/
theorem updateObject_unknown_id_keeps_objects_witness :
    currentObjects (handleUpdateObject "z" emptyUpdates exampleHist) = some [objA] := by
  have h := updateObject_unknown_id_keeps_objects exampleHist "z" emptyUpdates
    (by decide) (by decide)
  rw [h.1]
  rfl

/-- C4: starting from the initial history (`[initialScene]`, cursor 0), every
finite sequence of commit/undo/redo operations preserves the cursor invariant
`0 ≤ cursor < snapshots.length`; `current()` is literally `snapshots[cursor]`
and is a well-defined snapshot; `undo()` is a no-op at cursor 0 and `redo()`
is a no-op at cursor `snapshots.length - 1`. -/
theorem history_invariant_all_ops (init : List SceneObject) (ops : List HistOp) :
    HistInv (runOps (initialHistory init) ops)
    ∧ (∃ snap, currentObjects (runOps (initialHistory init) ops) = some snap)
    ∧ (∀ s : HistoryState, currentObjects s = s.history[s.historyIndex]?)
    ∧ (∀ s : HistoryState, s.historyIndex = 0 → handleUndo s = s)
    ∧ (∀ s : HistoryState, s.historyIndex = s.history.length - 1 → handleRedo s = s) := by
  have hinv : HistInv (runOps (initialHistory init) ops) :=
    histInv_runOps (initialHistory init) ops (by unfold HistInv initialHistory; simp)
  refine ⟨hinv, ?_, fun s => rfl, handleUndo_at_zero, handleRedo_at_top⟩
  unfold HistInv at hinv
  exact ⟨_, List.getElem?_eq_getElem hinv⟩

theorem runDrag_changes (se : Bool) (mode : TransformMode) (obj : SceneObject)
    (all : List SceneObject) (hist0 : HistoryState) (m : Transform) (b : Bool)
    (frames : List Transform) :
    runDrag se mode obj all ⟨hist0, m, b⟩ (frames.map DragEvent.dragChange)
      = ⟨hist0, frames.foldl (fun _ t => applyChange se mode obj all b t) m, b⟩ := by
  induction frames generalizing m with
  | nil => rfl
  | cons t rest ih =>
    show runDrag se mode obj all ⟨hist0, applyChange se mode obj all b t, b⟩
        (rest.map DragEvent.dragChange) = _
    rw [ih]
    rfl

/-- C5: a completed drag gesture — `dragStart`, then any number of
`dragChange` frames, then one `dragEnd` — appends exactly one snapshot: the
history is untouched while the frames run, the release performs the single
commit (via `handleUpdateObject` on the handle's final transform), the
snapshot count grows by exactly one (the cursor being at the end of history),
and in the committed snapshot the dragged object carries the handle's final
position, rotation and scale. -/
theorem drag_gesture_commits_once (se : Bool) (mode : TransformMode)
    (obj : SceneObject) (allObjects : List SceneObject) (h : HistoryState)
    (m₀ : Transform) (frames : List Transform)
    (hinv : HistInv h) (hcur : h.historyIndex = h.history.length - 1) :
    (runDrag se mode obj allObjects ⟨h, m₀, false⟩
        (DragEvent.dragStart :: frames.map DragEvent.dragChange)).hist = h
    ∧ runDrag se mode obj allObjects ⟨h, m₀, false⟩
        (DragEvent.dragStart :: (frames.map DragEvent.dragChange ++ [DragEvent.dragEnd]))
      = ⟨handleUpdateObject obj.id
            (updatesOfTransform (meshAfter se mode obj allObjects m₀ frames)) h,
          meshAfter se mode obj allObjects m₀ frames, false⟩
    ∧ (runDrag se mode obj allObjects ⟨h, m₀, false⟩
        (DragEvent.dragStart :: (frames.map DragEvent.dragChange ++ [DragEvent.dragEnd]))).hist.history.length
      = h.history.length + 1
    ∧ (∀ o ∈ (currentObjects (runDrag se mode obj allObjects ⟨h, m₀, false⟩
        (DragEvent.dragStart :: (frames.map DragEvent.dragChange ++ [DragEvent.dragEnd]))).hist).getD [],
        o.id = obj.id →
          o.position = (meshAfter se mode obj allObjects m₀ frames).position
          ∧ o.rotation = (meshAfter se mode obj allObjects m₀ frames).rotation
          ∧ o.scale = (meshAfter se mode obj allObjects m₀ frames).scale) := by
  have hstart : (runDrag se mode obj allObjects ⟨h, m₀, false⟩
      (DragEvent.dragStart :: frames.map DragEvent.dragChange)).hist = h := by
    show (runDrag se mode obj allObjects ⟨h, m₀, true⟩
      (frames.map DragEvent.dragChange)).hist = h
    rw [runDrag_changes]
  have hfull : runDrag se mode obj allObjects ⟨h, m₀, false⟩
      (DragEvent.dragStart :: (frames.map DragEvent.dragChange ++ [DragEvent.dragEnd]))
      = ⟨handleUpdateObject obj.id
            (updatesOfTransform (meshAfter se mode obj allObjects m₀ frames)) h,
          meshAfter se mode obj allObjects m₀ frames, false⟩ := by
    show List.foldl (processDragEvent se mode obj allObjects) ⟨h, m₀, true⟩
        (frames.map DragEvent.dragChange ++ [DragEvent.dragEnd]) = _
    rw [List.foldl_append]
    rw [show List.foldl (processDragEvent se mode obj allObjects) ⟨h, m₀, true⟩
        (frames.map DragEvent.dragChange)
        = runDrag se mode obj allObjects ⟨h, m₀, true⟩ (frames.map DragEvent.dragChange)
      from rfl]
    rw [runDrag_changes]
    rfl
  have hlen : (runDrag se mode obj allObjects ⟨h, m₀, false⟩
      (DragEvent.dragStart :: (frames.map DragEvent.dragChange ++ [DragEvent.dragEnd]))).hist.history.length
      = h.history.length + 1 := by
    rw [hfull]
    show (handleUpdateObject obj.id
        (updatesOfTransform (meshAfter se mode obj allObjects m₀ frames)) h).history.length
      = h.history.length + 1
    unfold handleUpdateObject
    rw [setHist_length _ h hinv]
    unfold HistInv at hinv
    omega
  refine ⟨hstart, hfull, hlen, ?_⟩
  intro o ho hid
  rw [hfull] at ho
  show o.position = (meshAfter se mode obj allObjects m₀ frames).position
      ∧ o.rotation = (meshAfter se mode obj allObjects m₀ frames).rotation
      ∧ o.scale = (meshAfter se mode obj allObjects m₀ frames).scale
  unfold handleUpdateObject at ho
  rw [currentObjects_setHist _ h hinv, Option.getD_some] at ho
  obtain ⟨o', ho', rfl⟩ := List.mem_map.1 ho
  by_cases hc : o'.id = obj.id
  · rw [if_pos hc]
    exact ⟨rfl, rfl, rfl⟩
  · rw [if_neg hc] at hid ⊢
    exact absurd hid hc

/-- C5 witness: dragging the Plank through two intermediate frames and
releasing appends exactly one snapshot to a one-entry history. -/
theorem drag_gesture_commits_once_witness :
    (runDrag true TransformMode.translate plankObj sceneC6
        ⟨⟨[sceneC6], 0⟩, ⟨⟨5, 5, 5⟩, ⟨0, 0, 0⟩, ⟨1, 3/10, 1/10⟩⟩, false⟩
        (DragEvent.dragStart ::
          ([⟨⟨2, 1, 1⟩, ⟨0, 0, 0⟩, ⟨1, 3/10, 1/10⟩⟩,
            ⟨⟨0, 3/20, 1/20⟩, ⟨0, 0, 0⟩, ⟨1, 3/10, 1/10⟩⟩].map DragEvent.dragChange
            ++ [DragEvent.dragEnd]))).hist.history.length = 2 :=
  (drag_gesture_commits_once true TransformMode.translate plankObj sceneC6
    ⟨[sceneC6], 0⟩ ⟨⟨5, 5, 5⟩, ⟨0, 0, 0⟩, ⟨1, 3/10, 1/10⟩⟩
    [⟨⟨2, 1, 1⟩, ⟨0, 0, 0⟩, ⟨1, 3/10, 1/10⟩⟩,
     ⟨⟨0, 3/20, 1/20⟩, ⟨0, 0, 0⟩, ⟨1, 3/10, 1/10⟩⟩]
    (by decide) (by decide)).2.2.1

/-- C4 witness: the invariant after a concrete commit/undo/redo/commit
sequence from `[[objA]]`. -/
theorem history_invariant_all_ops_witness :
    HistInv (runOps (initialHistory [objA])
      [HistOp.commitF (fun l => l ++ [objB]), HistOp.undo, HistOp.redo,
       HistOp.commitF (fun _ => [objC]), HistOp.undo]) :=
  (history_invariant_all_ops [objA]
    [HistOp.commitF (fun l => l ++ [objB]), HistOp.undo, HistOp.redo,
     HistOp.commitF (fun _ => [objC]), HistOp.undo]).1

/-- C6 counterexample: in the scene `[Sheet(pos 0,0,0, scale 2,2,0.1),
Plank(pos 5,5,5, scale 1,0.3,0.1)]`, snapping the Plank at proposed position
`(0, 0.15, 0.05)` does NOT move Y to `0.2`: the Y coordinate stays `0.15`,
because the combined half-width on Y is `(0.3 + 2)/2 = 1.15`, not
`(0.1 + 0.3)/2`. -/
theorem snap_scenario_counterexample :
    trySnap plankObj proposedC6 sceneC6 = ⟨0, 3/20, 1/10⟩
    ∧ (trySnap plankObj proposedC6 sceneC6).y ≠ 1/5 := by
  have hval : trySnap plankObj proposedC6 sceneC6 = ⟨0, 3/20, 1/10⟩ := by
    unfold trySnap sceneC6
    rw [List.foldl_cons, List.foldl_cons, List.foldl_nil,
      snapStep_self plankObj proposedC6 _ plankObj rfl,
      snapStep_hit _ _ _ _ (by decide) rfl
        (by norm_num [distLt, distSq, sheetObj, plankObj, mkBox, proposedC6, snapThreshold])]
    norm_num [snapAxis, ratAbs, snapThreshold, sheetObj, plankObj, mkBox, proposedC6]
  refine ⟨hval, ?_⟩
  rw [hval]
  norm_num

/-- C6 (amended): in the end-to-end scene, the combined-half-width formula on
the Y axis gives `(0.3 + 2)/2 = 1.15`, which puts both Y faces outside the
0.25 threshold, so Y stays at the proposed `0.15`; the Z axis instead
matches, and Z is adjusted to `0 + (0.1 + 0.1)/2 = 0.1`. -/
theorem snap_scenario_exact :
    trySnap plankObj proposedC6 sceneC6 = ⟨0, 3/20, 1/10⟩
    ∧ (plankObj.scale.y + sheetObj.scale.y) / 2 = 23/20
    ∧ ¬ ratAbs (proposedC6.y - sheetObj.position.y
          - (plankObj.scale.y + sheetObj.scale.y) / 2) < snapThreshold
    ∧ ¬ ratAbs (proposedC6.y - sheetObj.position.y
          + (plankObj.scale.y + sheetObj.scale.y) / 2) < snapThreshold
    ∧ (trySnap plankObj proposedC6 sceneC6).y = proposedC6.y
    ∧ (trySnap plankObj proposedC6 sceneC6).z
        = sheetObj.position.z + (plankObj.scale.z + sheetObj.scale.z) / 2 := by
  have hval : trySnap plankObj proposedC6 sceneC6 = ⟨0, 3/20, 1/10⟩ := by
    unfold trySnap sceneC6
    rw [List.foldl_cons, List.foldl_cons, List.foldl_nil,
      snapStep_self plankObj proposedC6 _ plankObj rfl,
      snapStep_hit _ _ _ _ (by decide) rfl
        (by norm_num [distLt, distSq, sheetObj, plankObj, mkBox, proposedC6, snapThreshold])]
    norm_num [snapAxis, ratAbs, snapThreshold, sheetObj, plankObj, mkBox, proposedC6]
  rw [hval]
  norm_num [ratAbs, snapThreshold, sheetObj, plankObj, mkBox, proposedC6]

/-- C7 counterexample: two boxes of half-extent 0.5 (unit scale), faces
touching at center distance 1.0 on X; at proposed X = 1.25 the delta from the
touching value is exactly the 0.25 threshold — the claim includes this
boundary, but the code's strict `<` leaves the position unadjusted. -/
theorem snap_threshold_boundary_counterexample :
    ratAbs ((5/4 : ℚ) - (candidateBox.position.x
        + (movingBox.scale.x + candidateBox.scale.x) / 2)) ≤ snapThreshold
    ∧ trySnap movingBox ⟨5/4, 0, 0⟩ [candidateBox, movingBox] = ⟨5/4, 0, 0⟩ := by
  constructor
  · norm_num [ratAbs, snapThreshold, movingBox, candidateBox, mkBox]
  · unfold trySnap
    rw [List.foldl_cons, List.foldl_cons, List.foldl_nil,
      snapStep_self movingBox ⟨5/4, 0, 0⟩ _ movingBox rfl,
      snapStep_far _ _ _ _ (by decide) rfl
        (by norm_num [distLt, distSq, movingBox, candidateBox, mkBox, snapThreshold])]

/-- C7 (amended): for the two half-extent-0.5 boxes with faces touching at
center distance 1.0 on X, a proposed position `(x, 0, 0)` with `x ≥ 0` snaps
X to the exact touching value 1 precisely when the delta is STRICTLY less
than the 0.25 threshold; at a delta of exactly 0.25 (or more) X is left
unadjusted — the boundary is excluded by the code's strict `<`. -/
theorem snap_threshold_strict (x : ℚ) (hx : 0 ≤ x) :
    trySnap movingBox ⟨x, 0, 0⟩ [candidateBox, movingBox]
      = if ratAbs (x - 1) < snapThreshold then ⟨1, 0, 0⟩ else ⟨x, 0, 0⟩ := by
  unfold trySnap
  rw [List.foldl_cons, List.foldl_cons, List.foldl_nil,
    snapStep_self movingBox ⟨x, 0, 0⟩ _ movingBox rfl]
  have hdist : distSq candidateBox.position ⟨x, 0, 0⟩ = x ^ 2 := by
    show ((0 : ℚ) - x) ^ 2 + (0 - 0) ^ 2 + (0 - 0) ^ 2 = x ^ 2
    ring
  by_cases hlt : x < 5/4
  · have hd : distLt candidateBox.position ⟨x, 0, 0⟩
        (max movingBox.scale.x candidateBox.scale.x + snapThreshold) = true := by
      show distLt candidateBox.position ⟨x, 0, 0⟩ (max 1 1 + 1/4) = true
      unfold distLt
      rw [hdist]
      have hm : (max (1 : ℚ) 1 + 1/4) = 5/4 := by norm_num
      rw [hm]
      simp only [Bool.and_eq_true, decide_eq_true_eq]
      constructor
      · norm_num
      · nlinarith
    rw [snapStep_hit _ _ _ _ (by decide) rfl hd]
    show (⟨snapAxis x 0 ((1 + 1) / 2) x,
          snapAxis 0 0 ((1 + 1) / 2) 0,
          snapAxis 0 0 ((1 + 1) / 2) 0⟩ : Vec3)
        = if ratAbs (x - 1) < snapThreshold then ⟨1, 0, 0⟩ else ⟨x, 0, 0⟩
    have h112 : ((1 + 1 : ℚ)) / 2 = 1 := by norm_num
    have hzero : snapAxis (0 : ℚ) 0 1 0 = 0 := by
      norm_num [snapAxis, ratAbs, snapThreshold]
    rw [h112, snapAxis_unit x hx, hzero]
    by_cases hc : ratAbs (x - 1) < snapThreshold
    · rw [if_pos hc, if_pos hc]
    · rw [if_neg hc, if_neg hc]
  · have hnd : ¬ distSq candidateBox.position ⟨x, 0, 0⟩
        < (max movingBox.scale.x candidateBox.scale.x + snapThreshold)
          * (max movingBox.scale.x candidateBox.scale.x + snapThreshold) := by
      show ¬ distSq candidateBox.position ⟨x, 0, 0⟩ < (max 1 1 + 1/4) * (max 1 1 + 1/4)
      rw [hdist]
      have : (max (1 : ℚ) 1 + 1/4) = 5/4 := by norm_num
      rw [this]
      nlinarith [not_lt.mp hlt]
    have hd : distLt candidateBox.position ⟨x, 0, 0⟩
        (max movingBox.scale.x candidateBox.scale.x + snapThreshold) = false := by
      unfold distLt
      rw [decide_eq_false hnd]
      simp
    rw [snapStep_far _ _ _ _ (by decide) rfl hd, if_neg]
    rw [ratAbs_eq_abs, abs_of_nonneg (by linarith)]
    show ¬ x - 1 < 1/4
    linarith

/-- C7 amended witness: at proposed X = 9/8 (delta 1/8 < 0.25) the snap
adjusts X to the exact touching value 1. -/
theorem snap_threshold_strict_witness :
    trySnap movingBox ⟨9/8, 0, 0⟩ [candidateBox, movingBox] = ⟨1, 0, 0⟩ := by
  have h := snap_threshold_strict (9/8) (by norm_num)
  rw [h, if_pos]
  norm_num [ratAbs, snapThreshold]

/-- C8: a proposed position that is already exactly face-aligned against the
candidate set — on every axis, every candidate face test that fires within
the snap threshold is met exactly — is a fixed point of the snap pass. -/
theorem snap_aligned_fixed_point (obj : SceneObject) (p : Vec3)
    (objs : List SceneObject)
    (hal : ∀ other ∈ objs, other.id ≠ obj.id → other.visible = true →
      distLt other.position p (max obj.scale.x other.scale.x + snapThreshold) = true →
      AlignedAxis p.x other.position.x ((obj.scale.x + other.scale.x) / 2)
      ∧ AlignedAxis p.y other.position.y ((obj.scale.y + other.scale.y) / 2)
      ∧ AlignedAxis p.z other.position.z ((obj.scale.z + other.scale.z) / 2)) :
    trySnap obj p objs = p := by
  unfold trySnap
  apply foldl_fixed
  intro other hmem
  by_cases hid : other.id = obj.id
  · exact snapStep_self obj p p other hid
  · by_cases hvis : other.visible = true
    · by_cases hd : distLt other.position p
          (max obj.scale.x other.scale.x + snapThreshold) = true
      · obtain ⟨hax, hay, haz⟩ := hal other hmem hid hvis hd
        rw [snapStep_hit obj p p other hid hvis hd,
          snapAxis_fixed _ _ _ hax, snapAxis_fixed _ _ _ hay,
          snapAxis_fixed _ _ _ haz]
      · exact snapStep_far obj p p other hid hvis (by simpa using hd)
    · unfold snapStep
      rw [if_pos (Or.inr (by simpa using hvis))]

/-- C8 witness: `(1, 0, 0)` is exactly aligned to the candidate's positive X
face and is returned unchanged. -/
theorem snap_aligned_fixed_point_witness :
    trySnap movingBox ⟨1, 0, 0⟩ [candidateBox, movingBox] = ⟨1, 0, 0⟩ := by
  apply snap_aligned_fixed_point
  intro other hmem hid hvis hd
  rcases List.mem_cons.mp hmem with rfl | hmem2
  · refine ⟨⟨fun _ => ?_, fun hcon => ?_⟩, ⟨fun hcon => ?_, fun hcon => ?_⟩,
      ⟨fun hcon => ?_, fun hcon => ?_⟩⟩ <;>
      norm_num [ratAbs, snapThreshold, candidateBox, movingBox, mkBox] at *
  · rcases List.mem_cons.mp hmem2 with rfl | h0
    · exact absurd rfl hid
    · exact absurd h0 (List.not_mem_nil other)

/-- C9: when no candidate face test fires on the Y axis nor on the Z axis,
the snap pass returns the proposed Y and Z exactly; and
`handleTransformChange` never touches the handle's rotation or scale. -/
theorem snap_no_cross_axis_leak (obj : SceneObject) (p : Vec3)
    (objs : List SceneObject)
    (hy : ∀ other ∈ objs, other.id ≠ obj.id → other.visible = true →
        distLt other.position p (max obj.scale.x other.scale.x + snapThreshold) = true →
        NoFaceMatch p.y other.position.y ((obj.scale.y + other.scale.y) / 2))
    (hz : ∀ other ∈ objs, other.id ≠ obj.id → other.visible = true →
        distLt other.position p (max obj.scale.x other.scale.x + snapThreshold) = true →
        NoFaceMatch p.z other.position.z ((obj.scale.z + other.scale.z) / 2)) :
    ((trySnap obj p objs).y = p.y ∧ (trySnap obj p objs).z = p.z)
    ∧ ∀ (se : Bool) (mode : TransformMode) (o : SceneObject)
        (all : List SceneObject) (d : Bool) (t : Transform),
        (applyChange se mode o all d t).rotation = t.rotation
        ∧ (applyChange se mode o all d t).scale = t.scale := by
  constructor
  · suffices haux : ∀ (l : List SceneObject) (acc : Vec3),
        (∀ other ∈ l, other.id ≠ obj.id → other.visible = true →
          distLt other.position p (max obj.scale.x other.scale.x + snapThreshold) = true →
          NoFaceMatch p.y other.position.y ((obj.scale.y + other.scale.y) / 2)) →
        (∀ other ∈ l, other.id ≠ obj.id → other.visible = true →
          distLt other.position p (max obj.scale.x other.scale.x + snapThreshold) = true →
          NoFaceMatch p.z other.position.z ((obj.scale.z + other.scale.z) / 2)) →
        acc.y = p.y → acc.z = p.z →
        (l.foldl (snapStep obj p) acc).y = p.y
        ∧ (l.foldl (snapStep obj p) acc).z = p.z by
      exact haux objs p hy hz rfl rfl
    intro l
    induction l with
    | nil => intro acc _ _ hay haz; exact ⟨hay, haz⟩
    | cons other rest ih =>
      intro acc hyl hzl hay haz
      rw [List.foldl_cons]
      apply ih
      · exact fun o ho => hyl o (by simp [ho])
      · exact fun o ho => hzl o (by simp [ho])
      · by_cases hid : other.id = obj.id
        · rw [snapStep_self obj p acc other hid]; exact hay
        · by_cases hvis : other.visible = true
          · by_cases hd : distLt other.position p
                (max obj.scale.x other.scale.x + snapThreshold) = true
            · rw [snapStep_hit obj p acc other hid hvis hd]
              show snapAxis p.y other.position.y
                  ((obj.scale.y + other.scale.y) / 2) acc.y = p.y
              rw [snapAxis_nomatch _ _ _ _ (hyl other (by simp) hid hvis hd)]
              exact hay
            · rw [snapStep_far obj p acc other hid hvis (by simpa using hd)]
              exact hay
          · unfold snapStep
            rw [if_pos (Or.inr (by simpa using hvis))]
            exact hay
      · by_cases hid : other.id = obj.id
        · rw [snapStep_self obj p acc other hid]; exact haz
        · by_cases hvis : other.visible = true
          · by_cases hd : distLt other.position p
                (max obj.scale.x other.scale.x + snapThreshold) = true
            · rw [snapStep_hit obj p acc other hid hvis hd]
              show snapAxis p.z other.position.z
                  ((obj.scale.z + other.scale.z) / 2) acc.z = p.z
              rw [snapAxis_nomatch _ _ _ _ (hzl other (by simp) hid hvis hd)]
              exact haz
            · rw [snapStep_far obj p acc other hid hvis (by simpa using hd)]
              exact haz
          · unfold snapStep
            rw [if_pos (Or.inr (by simpa using hvis))]
            exact haz
  · intro se mode o all d t
    constructor <;> (unfold applyChange; split <;> rfl)

/-- C9 witness: at proposed `(9/8, 0, 0)` the X axis snaps but Y and Z are
returned exactly as proposed. -/
theorem snap_no_cross_axis_leak_witness :
    (trySnap movingBox ⟨9/8, 0, 0⟩ [candidateBox, movingBox]).y = 0
    ∧ (trySnap movingBox ⟨9/8, 0, 0⟩ [candidateBox, movingBox]).z = 0 := by
  have h := snap_no_cross_axis_leak movingBox ⟨9/8, 0, 0⟩ [candidateBox, movingBox]
    (by
      intro other hmem hid hvis hd
      rcases List.mem_cons.mp hmem with rfl | hmem2
      · constructor <;> norm_num [ratAbs, snapThreshold, candidateBox, movingBox, mkBox]
      · rcases List.mem_cons.mp hmem2 with rfl | h0
        · exact absurd rfl hid
        · exact absurd h0 (List.not_mem_nil other))
    (by
      intro other hmem hid hvis hd
      rcases List.mem_cons.mp hmem with rfl | hmem2
      · constructor <;> norm_num [ratAbs, snapThreshold, candidateBox, movingBox, mkBox]
      · rcases List.mem_cons.mp hmem2 with rfl | h0
        · exact absurd rfl hid
        · exact absurd h0 (List.not_mem_nil other))
  exact h.1

/-- C10: when the proposed coordinate is within the snap threshold of both
the positive and the negative face of a candidate on one axis (possible when
the combined half-width is below the threshold), the positive face wins: the
`else if` structure applies the negative-face adjustment only when the
positive-face test fails. -/
theorem snap_positive_face_priority (cur otherC chw prev : ℚ)
    (hpos : ratAbs (cur - otherC - chw) < snapThreshold)
    (_hneg : ratAbs (cur - otherC + chw) < snapThreshold) :
    snapAxis cur otherC chw prev = otherC + chw
    ∧ ∀ c o w pv : ℚ, ¬ ratAbs (c - o - w) < snapThreshold →
        ratAbs (c - o + w) < snapThreshold →
        snapAxis c o w pv = o - w := by
  constructor
  · unfold snapAxis
    rw [if_pos hpos]
  · intro c o w pv h1 h2
    unfold snapAxis
    rw [if_neg h1, if_pos h2]

/-- C10 witness: with combined half-width 1/10 (below the 1/4 threshold) and
the proposed coordinate at the candidate's center, both face tests fire and
the positive face value 1/10 is chosen. -/
theorem snap_positive_face_priority_witness :
    snapAxis 0 0 (1/10) 42 = 0 + 1/10 :=
  (snap_positive_face_priority 0 0 (1/10) 42
    (by norm_num [ratAbs, snapThreshold])
    (by norm_num [ratAbs, snapThreshold])).1

end ThreeCad
